import Mathlib

/-!
Verification of the vcache two-tier cache (src/vcache/__init__.py).

The development is a shallow embedding of the Python module:
* byte strings are `List Nat` (each entry a byte value),
* Python `None` is `Option.none`,
* exceptions are an explicit `Except PyErr` result,
* the external libraries `pickle`, `zlib` and the UTF-8 codec are
  collaborators, abstracted as a `PyLibs` bundle of functions together with
  the round-trip laws those libraries satisfy on the values the program
  feeds them,
* the mutable state (the cacheout local store, the remote Redis
  collaborator state, the hit/miss counters) is threaded explicitly;
  every stateful operation returns the post-state next to an
  `Except`-style outcome, so state changes made before an exception
  survive it, as in Python,
* wall-clock time (`datetime.now()`) is an explicit `now : Int`
  parameter counting seconds since the 2020-01-01 epoch of the module.
-/

set_option autoImplicit false

namespace VCache

/-! Section: Module constants (src/vcache/__init__.py lines 10-18) -/

def LOCAL_CACHE_MAX_SIZE : Nat := 256

def COMPRESSION_THRESHOLD : Nat := 64

def ONE_MINUTE : Int := 60

def ONE_HOUR : Int := ONE_MINUTE * 60

/-- The single byte of `NO_COMPRESSION = b"\x00"`. -/
def NO_COMPRESSION : Nat := 0

/-- The single byte of `ZLIB_COMPRESSION = b"\x01"`. -/
def ZLIB_COMPRESSION : Nat := 1

/-- The single byte of `BYTES_SUFFIX = b"\x00"`. -/
def BYTES_SUFFIX : Nat := 0

/-- The single byte of `STR_SUFFIX = b"\x01"`. -/
def STR_SUFFIX : Nat := 1

/-- The single byte of `OTHER_SUFFIX = b"\x02"`. -/
def OTHER_SUFFIX : Nat := 2

/-! Section: Python values and exceptions -/

/-- A Python value a cache user may store: a byte string, a text string, or
any other (picklable) object.  Arbitrary objects are represented by an
abstract code `o : Nat`; what `pickle` does with such a code is supplied by
the `PyLibs` collaborator bundle. -/
inductive PyValue where
  | bytes (bs : List Nat)
  | str (s : String)
  | other (o : Nat)
  deriving DecidableEq

/-- The exceptions the embedded code can raise.  The first five mirror the
exception classes of the module; the rest mirror Python built-in exceptions
raised by the code of the module (`TypeError` from `len(True)`,
`UnicodeDecodeError` from `bytes.decode`, ...).  `collabError` is an
arbitrary exception escaping a remote-tier collaborator unwrapped, and
`fuelExhausted` is a modelling artefact for the unbounded recursion of
`once`. -/
inductive PyErr where
  | valueError
  | cacheMiss
  | redisLocalCacheNone
  | redisIface (m : String)
  | notImplementedError (m : String)
  | unknownCompression
  | typeError
  | unicodeDecodeError
  | zlibError
  | pickleError
  | notReached
  | overflowError
  | attrError
  | collabError (m : String)
  | fuelExhausted
  deriving DecidableEq

/-- The external libraries the module imports (`pickle`, `zlib`) and the
UTF-8 codec, abstracted as collaborator functions together with the
round-trip laws they satisfy.  Arbitrary picklable objects are the codes
`Nat`; `objTruthy` gives the Python truthiness of such an object (`0`,
`False`, `[]`, ... are falsy). -/
structure PyLibs where
  pickleDumps : Nat → List Nat
  pickleLoads : List Nat → Option Nat
  zlibCompress : List Nat → List Nat
  zlibDecompress : List Nat → Option (List Nat)
  utf8Encode : String → List Nat
  utf8Decode : List Nat → Option String
  objTruthy : Nat → Bool
  pickle_roundtrip : ∀ o, pickleLoads (pickleDumps o) = some o
  zlib_roundtrip : ∀ b, zlibDecompress (zlibCompress b) = some b
  utf8_roundtrip : ∀ s, utf8Decode (utf8Encode s) = some s

/-- Python truthiness of a stored value: empty byte strings and empty text
strings are falsy; other objects defer to the collaborator bundle. -/
def truthy (L : PyLibs) : PyValue → Bool
  | .bytes bs => !bs.isEmpty
  | .str s => !s.isEmpty
  | .other o => L.objTruthy o

/-! Section: Codec: `Cache.marshal` / `Cache.unmarshal` (lines 274-316) -/

/-- Function `Cache.marshal` on a value known not to be `None` (the dispatch below
the `None` test at line 275). -/
def marshal1 (L : PyLibs) : PyValue → List Nat
  | .bytes bs => bs ++ [BYTES_SUFFIX]
  | .str s => L.utf8Encode s ++ [STR_SUFFIX]
  | .other o =>
    let p := L.pickleDumps o
    if p.length < COMPRESSION_THRESHOLD then
      p ++ [NO_COMPRESSION, OTHER_SUFFIX]
    else
      L.zlibCompress p ++ [ZLIB_COMPRESSION, OTHER_SUFFIX]

/-- Function `Cache.marshal` (lines 274-291): `None` maps to `None`, everything else
to a tagged byte string. -/
def marshal (L : PyLibs) : Option PyValue → Option (List Nat)
  | none => none
  | some v => some (marshal1 L v)

/-- Function `Cache.unmarshal` (lines 293-316).  `None` or empty input yields `None`;
otherwise the final tag byte is stripped and dispatched on; any tag other
than `BYTES_SUFFIX`/`STR_SUFFIX` takes the `OTHER` path, which reads a
compression marker byte and then unpickles. -/
def unmarshal (L : PyLibs) : Option (List Nat) → Except PyErr (Option PyValue)
  | none => .ok none
  | some b =>
    match b.getLast? with
    | none => .ok none
    | some tag =>
      let b1 := b.dropLast
      if tag = BYTES_SUFFIX then .ok (some (.bytes b1))
      else if tag = STR_SUFFIX then
        match L.utf8Decode b1 with
        | some s => .ok (some (.str s))
        | none => .error .unicodeDecodeError
      else
        match b1.getLast? with
        | none => .ok none
        | some comp =>
          let b2 := b1.dropLast
          if comp = NO_COMPRESSION then
            match L.pickleLoads b2 with
            | some o => .ok (some (.other o))
            | none => .error .pickleError
          else if comp = ZLIB_COMPRESSION then
            match L.zlibDecompress b2 with
            | none => .error .zlibError
            | some p =>
              match L.pickleLoads p with
              | some o => .ok (some (.other o))
              | none => .error .pickleError
          else .error .unknownCompression

/-- Encoding never produces the empty byte string: each branch appends at
least one tag byte. -/
theorem marshal1_ne_nil (L : PyLibs) (v : PyValue) : marshal1 L v ≠ [] := by
  cases v with
  | bytes bs => simp [marshal1]
  | str s => simp [marshal1]
  | other o =>
    simp only [marshal1]
    split <;> simp

/-- Decoding inverts encoding on every non-`None` value. -/
theorem unmarshal_marshal1 (L : PyLibs) (v : PyValue) :
    unmarshal L (some (marshal1 L v)) = .ok (some v) := by
  cases v with
  | bytes bs =>
    simp [marshal1, unmarshal, List.getLast?_concat, BYTES_SUFFIX]
  | str s =>
    simp [marshal1, unmarshal, List.getLast?_concat, STR_SUFFIX, BYTES_SUFFIX,
      L.utf8_roundtrip]
  | other o =>
    simp only [marshal1]
    split
    · have e1 : L.pickleDumps o ++ [NO_COMPRESSION, OTHER_SUFFIX]
          = (L.pickleDumps o ++ [NO_COMPRESSION]) ++ [OTHER_SUFFIX] := by
        simp
      rw [e1]
      simp only [unmarshal, List.getLast?_concat]
      simp [OTHER_SUFFIX, BYTES_SUFFIX, STR_SUFFIX, List.getLast?_concat,
        NO_COMPRESSION, L.pickle_roundtrip]
    · have e1 : L.zlibCompress (L.pickleDumps o) ++ [ZLIB_COMPRESSION, OTHER_SUFFIX]
          = (L.zlibCompress (L.pickleDumps o) ++ [ZLIB_COMPRESSION]) ++ [OTHER_SUFFIX] := by
        simp
      rw [e1]
      simp only [unmarshal, List.getLast?_concat]
      simp [OTHER_SUFFIX, BYTES_SUFFIX, STR_SUFFIX, List.getLast?_concat,
        NO_COMPRESSION, ZLIB_COMPRESSION, L.zlib_roundtrip, L.pickle_roundtrip]

/-- C1: For every supported value (byte string, text string, arbitrary
serializable object, or the absent value), decoding the encoding yields the
value back, and decoding an absent or empty byte sequence yields the absent
value `None` rather than an error. -/
theorem claim1_roundtrip (L : PyLibs) :
    (∀ v : Option PyValue, unmarshal L (marshal L v) = .ok v)
      ∧ unmarshal L none = .ok none
      ∧ unmarshal L (some []) = .ok none := by
  refine ⟨?_, rfl, rfl⟩
  intro v
  cases v with
  | none => rfl
  | some v => simpa [marshal] using unmarshal_marshal1 L v

/-! Section: `Item` (lines 76-131) -/

/-- Structure `Item`: the unit of a write request.  `valueRaw` is `self._value` (set
to `None` only through the `value` setter, never at construction);
`ttlRaw` is `self._ttl`; `doF` is `self.do`, a producer that, when present,
yields a (possibly `None`) value each time the `value` property is read. -/
structure Item where
  key : String
  valueRaw : Option PyValue
  ttlRaw : Int
  doF : Option (Option PyValue)
  if_exists : Bool
  if_not_exists : Bool
  skip_local_cache : Bool
  deriving DecidableEq

/-- Method `Item.get_value` (lines 108-114): a present producer wins; otherwise the
stored value is returned only when truthy, else `None`. -/
def getValue (L : PyLibs) (item : Item) : Option PyValue :=
  match item.doF with
  | some r => r
  | none =>
    match item.valueRaw with
    | some v => if truthy L v then some v else none
    | none => none

/-- Method `Item.get_ttl` (lines 121-126): negative becomes `0`, a value below `1`
(that is, `0` for integers) becomes the 1-hour default, anything else is
returned unchanged. -/
def getTtl (item : Item) : Int :=
  if item.ttlRaw < 0 then 0
  else if item.ttlRaw < 1 then ONE_HOUR
  else item.ttlRaw

/-- An `Item` as built by `Item.__init__` with only key and value supplied
(ttl defaults to one hour, no producer, all flags false). -/
def item0 (k : String) (v : PyValue) : Item :=
  ⟨k, some v, ONE_HOUR, none, false, false, false⟩

/-! Section: The local store collaborator (cacheout) and `Option` (lines 134-149) -/

/-- The bounded key-to-bytes collaborator store (`cacheout.Cache`).
Capacity-based eviction is a concern of the collaborator alone and is not
modelled; the entries are an association list with unique keys. -/
structure LCache where
  maxsize : Nat
  entries : List (String × List Nat)
  deriving DecidableEq

def defaultLC : LCache := ⟨LOCAL_CACHE_MAX_SIZE, []⟩

/-- Collaborator `get`. -/
def lcGet (lc : LCache) (k : String) : Option (List Nat) :=
  (lc.entries.find? (fun p => p.1 == k)).map (fun p => p.2)

/-- Collaborator `add`: the cacheout `add` inserts only when the key is not
already present, leaving an existing entry untouched. -/
def lcAdd (lc : LCache) (k : String) (v : List Nat) : LCache :=
  if (lcGet lc k).isSome then lc
  else { lc with entries := (k, v) :: lc.entries }

/-- Collaborator `delete`. -/
def lcDelete (lc : LCache) (k : String) : LCache :=
  { lc with entries := lc.entries.filter (fun p => p.1 != k) }

/-- Python truthiness of a cacheout store object: it defines a length, so
an empty store is falsy. -/
def lcTruthy (lc : LCache) : Bool := !lc.entries.isEmpty

/-- Truthiness of the `local_cache` argument of `Option.__init__`:
`None` is falsy, a store is as truthy as its length is nonzero. -/
def argTruthy : Option LCache → Bool
  | none => false
  | some lc => lcTruthy lc

/-- The remote-tier collaborator (`RedisIface`): each operation either
returns, raises `NotImplementedError`, or raises some other exception.  Its
private state has type `ρ` and is threaded by the orchestrator model. -/
inductive RErr where
  | notImpl (m : String)
  | otherExc (m : String)
  deriving DecidableEq

structure RedisOps (ρ : Type) where
  rset : ρ → String → List Nat → Int → Except RErr ρ
  rsetxx : ρ → String → List Nat → Int → Except RErr ρ
  rsetnx : ρ → String → List Nat → Int → Except RErr ρ
  rget : ρ → String → Except RErr (Option (List Nat))
  rdelete : ρ → String → Except RErr (Nat × ρ)

/-- The `Option` configuration object as built by `Option.__init__`
(lines 134-149): a falsy `local_cache` argument is replaced by a fresh
default store of capacity `LOCAL_CACHE_MAX_SIZE`; a negative
`local_cache_ttl` clamps to `0`, zero becomes one minute. -/
structure OptionV (ρ : Type) where
  redis : Option (RedisOps ρ)
  local_cache : Option LCache
  local_cache_ttl : Int
  stats_enabled : Bool

def mkOption (ρ : Type) (redis : Option (RedisOps ρ)) (local_cache : Option LCache)
    (local_cache_ttl : Int) (stats_enabled : Bool) : OptionV ρ :=
  { redis := redis
    local_cache :=
      match local_cache with
      | some lc => if lcTruthy lc then some lc else some defaultLC
      | none => some defaultLC
    local_cache_ttl :=
      if local_cache_ttl < 0 then 0
      else if local_cache_ttl = 0 then ONE_MINUTE
      else local_cache_ttl
    stats_enabled := stats_enabled }

/-! Section: A concrete collaborator bundle, used by witnesses and
counterexamples -/

def toyPickle (o : Nat) : List Nat := List.replicate o 0 ++ [o]

def toyUnpickle (bs : List Nat) : Option Nat :=
  match bs.getLast? with
  | some o => if bs = List.replicate o 0 ++ [o] then some o else none
  | none => none

/-- A concrete `PyLibs` instance: an executable stand-in for the external
libraries, satisfying the same round-trip laws. -/
def toyLibs : PyLibs where
  pickleDumps := toyPickle
  pickleLoads := toyUnpickle
  zlibCompress := fun b => b
  zlibDecompress := fun b => some b
  utf8Encode := fun s => s.data.map Char.toNat
  utf8Decode := fun bs => some (String.mk (bs.map Char.ofNat))
  objTruthy := fun o => o != 0
  pickle_roundtrip := by
    intro o
    simp [toyPickle, toyUnpickle, List.getLast?_concat]
  zlib_roundtrip := by intro b; rfl
  utf8_roundtrip := by
    intro s
    cases s with
    | mk data =>
      have h1 : (data.map Char.toNat).map Char.ofNat = data := by
        rw [List.map_map]
        have h2 : (Char.ofNat ∘ Char.toNat) = id := by
          funext c
          simp [Function.comp, Char.ofNat_toNat]
        rw [h2, List.map_id]
      simp [h1]

/-! Section: Claims about `Item`, `Option` and the codec tags -/

/-- An item whose stored ttl is negative. -/
def itemNegTtl : Item := { item0 "k" (.str "v") with ttlRaw := -5 }

/-- C3 counterexample: The claim says every non-positive stored ttl
(zero or negative) reads back as the 1-hour default.  For the negative
stored ttl `-5` the property reads back as `0`, not `3600`. -/
theorem claim3_counterexample :
    itemNegTtl.ttlRaw = -5 ∧ getTtl itemNegTtl = 0 ∧ getTtl itemNegTtl ≠ ONE_HOUR := by
  refine ⟨rfl, rfl, ?_⟩
  decide

/-- C3 amended: Reading the ttl property of an `Item` whose stored
ttl is non-positive yields the 1-hour default (3600 seconds) when the
stored ttl is exactly zero, and yields `0` when it is negative. -/
theorem claim3_amended (item : Item) (h : item.ttlRaw ≤ 0) :
    getTtl item = if item.ttlRaw = 0 then ONE_HOUR else 0 := by
  rcases lt_or_eq_of_le h with hlt | heq
  · simp [getTtl, hlt, Int.ne_of_lt hlt]
  · simp [getTtl, ← heq]
    intro hc
    omega

/-- Witness for C3: the amended theorem applied to an item whose stored
ttl is zero. -/
theorem claim3_witness :
    ({ item0 "k" (.str "v") with ttlRaw := 0 } : Item).ttlRaw ≤ 0
      ∧ getTtl { item0 "k" (.str "v") with ttlRaw := 0 }
          = if ({ item0 "k" (.str "v") with ttlRaw := 0 } : Item).ttlRaw = 0
            then ONE_HOUR else 0 :=
  ⟨by decide, claim3_amended { item0 "k" (.str "v") with ttlRaw := 0 } (by decide)⟩

/-- C6: `marshal` always appends a final type-tag byte: raw bytes plus
tag `0x00` for byte strings, UTF-8 bytes plus tag `0x01` for text, and for
every other value the generic serialization followed by a compression
marker byte and tag `0x02`, where the marker is `0x00` when the serialized
length is below the 64-byte threshold and `0x01` (with the payload
compressed) otherwise. -/
theorem claim6_tags (L : PyLibs) :
    BYTES_SUFFIX = 0 ∧ STR_SUFFIX = 1 ∧ OTHER_SUFFIX = 2
      ∧ NO_COMPRESSION = 0 ∧ ZLIB_COMPRESSION = 1
      ∧ COMPRESSION_THRESHOLD = 64
      ∧ (∀ bs, marshal1 L (.bytes bs) = bs ++ [BYTES_SUFFIX])
      ∧ (∀ s, marshal1 L (.str s) = L.utf8Encode s ++ [STR_SUFFIX])
      ∧ (∀ o, ((L.pickleDumps o).length < COMPRESSION_THRESHOLD →
            marshal1 L (.other o) = L.pickleDumps o ++ [NO_COMPRESSION, OTHER_SUFFIX])
          ∧ (COMPRESSION_THRESHOLD ≤ (L.pickleDumps o).length →
            marshal1 L (.other o)
              = L.zlibCompress (L.pickleDumps o) ++ [ZLIB_COMPRESSION, OTHER_SUFFIX])) := by
  refine ⟨rfl, rfl, rfl, rfl, rfl, rfl, fun bs => rfl, fun s => rfl, fun o => ⟨?_, ?_⟩⟩
  · intro h
    simp [marshal1, h]
  · intro h
    simp [marshal1, Nat.not_lt_of_le h]

/-- Witness for C6: at the concrete collaborator bundle, an object
whose serialization is 101 bytes long is compressed and marked `0x01`. -/
theorem claim6_witness :
    COMPRESSION_THRESHOLD ≤ (toyLibs.pickleDumps 100).length
      ∧ marshal1 toyLibs (.other 100)
          = toyLibs.zlibCompress (toyLibs.pickleDumps 100)
              ++ [ZLIB_COMPRESSION, OTHER_SUFFIX] := by
  have h := claim6_tags toyLibs
  exact ⟨by decide, (h.2.2.2.2.2.2.2.2 100).2 (by decide)⟩

/-- C9: An `Item` with no producer function whose concrete stored
value is falsy (empty string, empty bytes, a falsy object such as `0` or
`False`) reads back as the absent value `None` from the `value` property. -/
theorem claim9_falsy (L : PyLibs) (item : Item) (v : PyValue)
    (hdo : item.doF = none) (hv : item.valueRaw = some v)
    (ht : truthy L v = false) :
    getValue L item = none := by
  simp [getValue, hdo, hv, ht]

/-- Witness for C9: an item storing the empty string resolves to
`None`. -/
theorem claim9_witness :
    (item0 "k" (.str "")).doF = none
      ∧ (item0 "k" (.str "")).valueRaw = some (.str "")
      ∧ truthy toyLibs (.str "") = false
      ∧ getValue toyLibs (item0 "k" (.str "")) = none :=
  ⟨rfl, rfl, by decide,
    claim9_falsy toyLibs (item0 "k" (.str "")) (.str "") rfl rfl (by decide)⟩

/-- C10: `Option.__init__` never leaves the local tier absent: a
`None` (or otherwise falsy) `local_cache` argument is replaced by a fresh
default bounded store of capacity 256, so every freshly constructed
configuration has a present local tier. -/
theorem claim10_local_tier (ρ : Type) (r : Option (RedisOps ρ))
    (lc : Option LCache) (t : Int) (s : Bool) :
    (mkOption ρ r lc t s).local_cache.isSome = true
      ∧ (argTruthy lc = false → (mkOption ρ r lc t s).local_cache = some defaultLC)
      ∧ defaultLC.maxsize = 256 := by
  refine ⟨?_, ?_, rfl⟩
  · cases lc with
    | none => rfl
    | some c =>
      simp only [mkOption]
      split <;> rfl
  · intro h
    cases lc with
    | none => rfl
    | some c =>
      simp only [argTruthy] at h
      simp [mkOption, h]

/-- Witness for C10: constructing with `local_cache=None` yields the
default store. -/
theorem claim10_witness :
    argTruthy none = false
      ∧ (mkOption Unit none none 0 false).local_cache = some defaultLC :=
  ⟨rfl, (claim10_local_tier Unit none none 0 false).2.1 rfl⟩

/-! Section: Time stamps: `encode_time` / `decode_time` (lines 347-357)

Wall-clock instants are `Int` seconds relative to the `EPOCH` constant of the module
constant (2020-01-01). -/

/-- Function `encode_time`: 4-byte little-endian signed seconds-since-epoch.
In Python, `int.to_bytes(4, "little", signed=True)` raises `OverflowError`
outside the signed 32-bit range. -/
def encodeTime (secs : Int) : Except PyErr (List Nat) :=
  if secs < -2147483648 ∨ 2147483648 ≤ secs then .error .overflowError
  else
    let u := (secs % 4294967296).toNat
    .ok [u % 256, u / 256 % 256, u / 65536 % 256, u / 16777216 % 256]

/-- Function `decode_time`: little-endian signed 32-bit read of the 4 stamp bytes. -/
def decodeTime (bs : List Nat) : Int :=
  let u : Nat := bs.getD 0 0 + 256 * bs.getD 1 0 + 65536 * bs.getD 2 0
      + 16777216 * bs.getD 3 0
  if u < 2147483648 then (u : Int) else (u : Int) - 4294967296

/-! Section: Orchestrator state

The fixed configuration (which remote collaborator, the local-cache ttl,
the stats flag) is `Cfg`; the mutable pieces (local store contents and
presence, remote collaborator state, counters) are `St` and are threaded
through every operation.  An operation returns its post-state beside the
outcome, so mutations made before an exception survive it, as in Python.
The process-wide lock only serialises threads and has no sequential
effect, so it is not modelled. -/

structure Cfg (ρ : Type) where
  redis : Option (RedisOps ρ)
  local_cache_ttl : Int
  stats_enabled : Bool

structure St (ρ : Type) where
  lc : Option LCache
  rs : ρ
  hits : Nat
  misses : Nat
  deriving DecidableEq

/-- Method `Cache.local_set` (lines 318-321): when the configured local ttl is
positive, append the write-time stamp, then `add` to the collaborator
store (which keeps an existing entry).  Called only when a local store is
present; calling it without one is the modelled `AttributeError`. -/
def localSet (ρ : Type) (cfg : Cfg ρ) (key : String) (b : List Nat)
    (st : St ρ) (now : Int) : St ρ × Except PyErr Unit :=
  match st.lc with
  | none => (st, .error .attrError)
  | some lc =>
    if cfg.local_cache_ttl > 0 then
      match encodeTime now with
      | .error e => (st, .error e)
      | .ok stamp => ({ st with lc := some (lcAdd lc key (b ++ stamp)) }, .ok ())
    else ({ st with lc := some (lcAdd lc key b) }, .ok ())

/-- Method `Cache.local_get` (lines 323-337): a missing key or a zero ttl pass
through; a non-empty stored value shorter than the 4 stamp bytes raises
(`"not reached"`); otherwise the stamp is decoded and compared against the
ttl through `timedelta.seconds`, which is the elapsed time modulo one day
(86400 s); an expired entry is deleted from the store and reported absent,
a live one is returned with the stamp stripped. -/
def localGet (ρ : Type) (cfg : Cfg ρ) (key : String) (st : St ρ) (now : Int) :
    St ρ × Except PyErr (Option (List Nat)) :=
  match st.lc with
  | none => (st, .error .attrError)
  | some lc =>
    match lcGet lc key with
    | none => (st, .ok none)
    | some b =>
      if b.length = 0 ∨ cfg.local_cache_ttl = 0 then (st, .ok (some b))
      else if b.length < 4 then (st, .error .notReached)
      else
        let dt := decodeTime (b.drop (b.length - 4))
        if (now - dt) % 86400 > cfg.local_cache_ttl then
          ({ st with lc := some (lcDelete lc key) }, .ok none)
        else (st, .ok (some (b.take (b.length - 4))))

/-- The message text of a collaborator exception. -/
def rerrText : RErr → String
  | .notImpl m => m
  | .otherExc m => m

/-- Method `Cache._get_bytes` (lines 242-272): consult the local tier first unless
skipped; with no remote tier, fail with the configuration error when the
local tier is also absent, else with a cache miss; otherwise call the
remote `get`, wrapping any collaborator exception (after an optional
misses bump), counting an absent result as a miss unconditionally, and on
a hit optionally bumping hits and back-filling the local tier. -/
def getBytes (ρ : Type) (cfg : Cfg ρ) (key : String) (skip_local_cache : Bool)
    (st : St ρ) (now : Int) : St ρ × Except PyErr (Option (List Nat)) :=
  let rest := fun (st1 : St ρ) =>
    match cfg.redis with
    | none =>
      if st1.lc.isNone then (st1, .error .redisLocalCacheNone)
      else (st1, .error .cacheMiss)
    | some R =>
      match R.rget st1.rs key with
      | .error e =>
        let st2 := if cfg.stats_enabled then { st1 with misses := st1.misses + 1 } else st1
        (st2, .error (.redisIface ("cache: redis get error. " ++ rerrText e)))
      | .ok none => ({ st1 with misses := st1.misses + 1 }, .ok none)
      | .ok (some b) =>
        let st2 := if cfg.stats_enabled then { st1 with hits := st1.hits + 1 } else st1
        if !skip_local_cache && st2.lc.isSome then
          match localSet ρ cfg key b st2 now with
          | (st3, .ok _) => (st3, .ok (some b))
          | (st3, .error e) => (st3, .error e)
        else (st2, .ok (some b))
  if !skip_local_cache && st.lc.isSome then
    match localGet ρ cfg key st now with
    | (st1, .error e) => (st1, .error e)
    | (st1, .ok (some b)) => (st1, .ok (some b))
    | (st1, .ok none) => rest st1
  else rest st

/-- The remote write method name `Cache.set` selects (lines 172-176):
`if_exists` switches to `setxx`, then `if_not_exists` overrides to
`setnx`. -/
def setFuncName (item : Item) : String :=
  if item.if_not_exists then "setnx" else if item.if_exists then "setxx" else "set"

/-- The remote write operation `Cache.set` invokes, per `setFuncName`. -/
def chosenOp (ρ : Type) (R : RedisOps ρ) (item : Item) :
    ρ → String → List Nat → Int → Except RErr ρ :=
  if item.if_not_exists then R.rsetnx else if item.if_exists then R.rsetxx else R.rset

/-- Method `Cache.set` (lines 159-184): reject an absent value; encode; write the
local tier when present; with no remote tier succeed only when a local
tier exists, else raise the configuration error; with a remote tier invoke
the operation selected by the write mode, passing key, encoded bytes and
normalized ttl, re-raising `NotImplementedError` unchanged and wrapping
any other collaborator exception as `RedisIfaceError`. -/
def setC (L : PyLibs) (ρ : Type) (cfg : Cfg ρ) (item : Item) (st : St ρ)
    (now : Int) : St ρ × Except PyErr Bool :=
  match getValue L item with
  | none => (st, .error .valueError)
  | some v =>
    let b := marshal1 L v
    let step :=
      if st.lc.isSome then localSet ρ cfg item.key b st now else (st, .ok ())
    match step with
    | (st1, .error e) => (st1, .error e)
    | (st1, .ok _) =>
      match cfg.redis with
      | none =>
        if st1.lc.isNone then (st1, .error .redisLocalCacheNone)
        else (st1, .ok true)
      | some R =>
        match chosenOp ρ R item st1.rs item.key b (getTtl item) with
        | .ok r2 => ({ st1 with rs := r2 }, .ok true)
        | .error (.notImpl m) => (st1, .error (.notImplementedError m))
        | .error (.otherExc m) =>
          (st1, .error (.redisIface
            ("cache: redis " ++ setFuncName item ++ " error. " ++ m)))

/-- Method `Cache.delete` (lines 210-222): always delete from the local tier
first when one is present; with no remote tier succeed only when a local
tier exists, else raise the configuration error; otherwise delegate to the
remote `delete` (whose exceptions propagate unwrapped), raising the
cache-miss error when it removed zero keys. -/
def deleteC (ρ : Type) (cfg : Cfg ρ) (key : String) (st : St ρ) :
    St ρ × Except PyErr Bool :=
  let st1 :=
    match st.lc with
    | some lc => { st with lc := some (lcDelete lc key) }
    | none => st
  match cfg.redis with
  | none =>
    if st1.lc.isNone then (st1, .error .redisLocalCacheNone)
    else (st1, .ok true)
  | some R =>
    match R.rdelete st1.rs key with
    | .error (.notImpl m) => (st1, .error (.notImplementedError m))
    | .error (.otherExc m) => (st1, .error (.collabError m))
    | .ok (n, r2) =>
      let st2 := { st1 with rs := r2 }
      if n = 0 then (st2, .error .cacheMiss) else (st2, .ok true)

/-! Section: The once / single-flight protocol (lines 193-240) -/

/-- The heterogeneous first component of `set_get_item_bytes_once`:
Python `None`, a byte string, or the `True` that `Cache.set` returns. -/
inductive OnceB where
  | noneB
  | bytesB (bs : List Nat)
  | trueB
  deriving DecidableEq

def OnceB.ofOpt : Option (List Nat) → OnceB
  | none => .noneB
  | some bs => .bytesB bs

/-- Python truthiness of that value (`if not b`). -/
def truthyB : OnceB → Bool
  | .noneB => false
  | .bytesB bs => !bs.isEmpty
  | .trueB => true

/-- Decoding applied to a `set_get_item_bytes_once` result:
applying `len` to the boolean `True` raises `TypeError`. -/
def unmarshalB (L : PyLibs) : OnceB → Except PyErr (Option PyValue)
  | .noneB => unmarshal L none
  | .bytesB bs => unmarshal L (some bs)
  | .trueB => .error .typeError

/-- Method `Cache.set_get_item_bytes_once` (lines 224-240): with a local store
present, return the local read (unprotected: its exceptions propagate)
flagged as cached; otherwise run the fetch-or-populate closure under the
lock, converting any exception into `(None, False)`. -/
def sgibo (L : PyLibs) (ρ : Type) (cfg : Cfg ρ) (item : Item) (st : St ρ)
    (now : Int) : St ρ × Except PyErr (OnceB × Bool) :=
  match st.lc with
  | some _ =>
    match localGet ρ cfg item.key st now with
    | (st1, .ok ob) => (st1, .ok (OnceB.ofOpt ob, true))
    | (st1, .error e) => (st1, .error e)
  | none =>
    match getBytes ρ cfg item.key item.skip_local_cache st now with
    | (st1, .ok (some bs)) => (st1, .ok (.bytesB bs, true))
    | (st1, .ok none) =>
      match setC L ρ cfg item st1 now with
      | (st2, .ok _) => (st2, .ok (.trueB, false))
      | (st2, .error _) => (st2, .ok (.noneB, false))
    | (st1, .error _) => (st1, .ok (.noneB, false))

/-- Method `Cache.once` (lines 198-208): fetch-or-populate, then decode into
the value field of the item; a falsy byte result leaves the item untouched; a decode
failure on cached bytes deletes the key (exceptions of that delete
propagate) and retries; a decode failure on fresh bytes is swallowed.
`fuel` bounds the unbounded Python recursion; exhaustion is the modelling
artefact `fuelExhausted`. -/
def onceC (L : PyLibs) (ρ : Type) : Nat → Cfg ρ → Item → St ρ → Int →
    St ρ × Except PyErr Item
  | 0, _, _, st, _ => (st, .error .fuelExhausted)
  | fuel + 1, cfg, item, st, now =>
    match sgibo L ρ cfg item st now with
    | (st1, .error e) => (st1, .error e)
    | (st1, .ok (b, cached)) =>
      if truthyB b then
        match unmarshalB L b with
        | .ok v => (st1, .ok { item with valueRaw := v })
        | .error _ =>
          if cached then
            match deleteC ρ cfg item.key st1 with
            | (st2, .ok _) => onceC L ρ fuel cfg item st2 now
            | (st2, .error e) => (st2, .error e)
          else (st1, .ok item)
      else (st1, .ok item)

/-! Section: Concrete configurations for witnesses and counterexamples -/

/-- The default configuration of `Cache()`: no remote tier, the one-minute
default local ttl, stats off. -/
def cfgLocalOnly : Cfg Unit := ⟨none, 60, false⟩

/-- The state right after default construction: a fresh empty local store. -/
def stDefault : St Unit := ⟨some defaultLC, (), 0, 0⟩

/-- A configuration with both tiers absent (reached by clearing
`opt.local_cache`, as the repository test does). -/
def stNoTiers : St Unit := ⟨none, (), 0, 0⟩

/-! Section: C7: the local-tier TTL stamp -/

/-- C7 code-bug evidence, an evaluation at the failing input: With the default
60-second local ttl, an entry stamped at time 0 and read exactly one day
later (elapsed 86400 s, far beyond the ttl) is served with the stamp
stripped and stays in the store, because the code compares
`timedelta.seconds` — the elapsed time modulo one day — against the ttl
instead of the total elapsed seconds. -/
theorem claim7_bug_evidence :
    (localSet Unit cfgLocalOnly "k" [5] stDefault 0).2 = .ok ()
      ∧ (localGet Unit cfgLocalOnly "k"
            (localSet Unit cfgLocalOnly "k" [5] stDefault 0).1 86400).2
          = .ok (some [5])
      ∧ (localGet Unit cfgLocalOnly "k"
            (localSet Unit cfgLocalOnly "k" [5] stDefault 0).1 86400).1
          = (localSet Unit cfgLocalOnly "k" [5] stDefault 0).1
      ∧ (86400 : Int) > cfgLocalOnly.local_cache_ttl := by
  refine ⟨rfl, rfl, rfl, by decide⟩

/-! Section: C4: exception suppression in the once protocol -/

/-- A default-configuration state whose local store holds a 1-byte entry
(for instance one put there by the caller-supplied cacheout store the
configuration was built from). -/
def stShortEntry : St Unit := ⟨some ⟨LOCAL_CACHE_MAX_SIZE, [("k", [9])]⟩, (), 0, 0⟩

/-- C4 counterexample: `once` can raise: with the default local tier
configured and ttl positive, the local read happens outside the protected
section, and a stored value shorter than the 4 stamp bytes makes it raise
the `"not reached"` exception, which escapes `once`. -/
theorem claim4_counterexample :
    (onceC toyLibs Unit 2 cfgLocalOnly (item0 "k" (.str "v")) stShortEntry 0).2
      = .error .notReached := rfl

/-- C4 amended: When no local tier is configured, the lock-guarded
fetch-or-populate section of the once protocol
(`set_get_item_bytes_once`) never raises: every exception while fetching
or populating bytes for the key of the item is suppressed and converted to "no
bytes obtained".  (With a local tier configured the local read runs
outside that protection and its exceptions propagate out of `once`.) -/
theorem claim4_amended (L : PyLibs) (ρ : Type) (cfg : Cfg ρ) (item : Item)
    (st : St ρ) (now : Int) (h : st.lc = none) :
    ∃ p : St ρ × (OnceB × Bool), sgibo L ρ cfg item st now = (p.1, .ok p.2) := by
  obtain ⟨lc, rs, hits, misses⟩ := st
  simp only at h
  subst h
  simp only [sgibo]
  rcases hgb : getBytes ρ cfg item.key item.skip_local_cache ⟨none, rs, hits, misses⟩ now
    with ⟨st1, r⟩
  cases r with
  | error e => exact ⟨(st1, (.noneB, false)), rfl⟩
  | ok ob =>
    cases ob with
    | some bs => exact ⟨(st1, (.bytesB bs, true)), rfl⟩
    | none =>
      rcases hsc : setC L ρ cfg item st1 now with ⟨st2, r2⟩
      cases r2 with
      | error e => exact ⟨(st2, (.noneB, false)), by simp [hsc]⟩
      | ok b => exact ⟨(st2, (.trueB, false)), by simp [hsc]⟩

/-- Witness for C4: the amended theorem applied at the no-local-tier
configuration with both tiers absent, where the byte fetch raises the
configuration error and the section still reports success. -/
theorem claim4_witness :
    stNoTiers.lc = none
      ∧ ∃ p : St Unit × (OnceB × Bool),
          sgibo toyLibs Unit cfgLocalOnly (item0 "k" (.str "v")) stNoTiers 0
            = (p.1, .ok p.2) :=
  ⟨rfl, claim4_amended toyLibs Unit cfgLocalOnly (item0 "k" (.str "v")) stNoTiers 0 rfl⟩

/-! Section: C8: delete -/

/-- C8: `delete` removes the key from the local tier first whenever
one is configured (also on every error path); with no remote tier it
succeeds exactly when a local tier exists and raises the configuration
error exactly when it does not; with a remote tier whose `delete` returns
a count, it raises the cache-miss error exactly when that count is zero
and returns success otherwise. -/
theorem claim8_delete (ρ : Type) (cfg : Cfg ρ) (key : String) (st : St ρ) :
    ((deleteC ρ cfg key st).1.lc = st.lc.map (fun lc => lcDelete lc key))
      ∧ (cfg.redis = none →
          (((deleteC ρ cfg key st).2 = .ok true) ↔ st.lc.isSome = true)
            ∧ (((deleteC ρ cfg key st).2 = .error .redisLocalCacheNone) ↔ st.lc = none))
      ∧ (∀ R, cfg.redis = some R → ∀ n r2, R.rdelete st.rs key = .ok (n, r2) →
          (((deleteC ρ cfg key st).2 = .error .cacheMiss) ↔ n = 0)
            ∧ (n ≠ 0 → (deleteC ρ cfg key st).2 = .ok true)) := by
  obtain ⟨lc, rs, hits, misses⟩ := st
  refine ⟨?_, ?_, ?_⟩
  · cases hr : cfg.redis with
    | none => cases lc <;> simp [deleteC, hr]
    | some R =>
      cases lc with
      | none =>
        simp only [deleteC, hr]
        rcases hd : R.rdelete rs key with e | p
        · cases e <;> simp
        · rcases p with ⟨n, r2⟩
          by_cases hn : n = 0 <;> simp [hn]
      | some c =>
        simp only [deleteC, hr]
        rcases hd : R.rdelete rs key with e | p
        · cases e <;> simp
        · rcases p with ⟨n, r2⟩
          by_cases hn : n = 0 <;> simp [hn]
  · intro hr
    cases lc <;> simp [deleteC, hr]
  · intro R hr n r2 hd
    cases lc with
    | none =>
      simp only [deleteC, hr, hd]
      by_cases hn : n = 0 <;> simp [hn]
    | some c =>
      simp only [deleteC, hr]
      simp only [hd]
      by_cases hn : n = 0 <;> simp [hn]

/-- Witness for C8: a remote tier whose `delete` reports one removed
key makes `delete` succeed. -/
theorem claim8_witness :
    ∃ R : RedisOps Unit, ∃ cfg : Cfg Unit, cfg.redis = some R
      ∧ R.rdelete () "k" = .ok (1, ())
      ∧ (1 : Nat) ≠ 0
      ∧ (deleteC Unit cfg "k" stNoTiers).2 = .ok true := by
  refine ⟨⟨fun r _ _ _ => .ok r, fun r _ _ _ => .ok r, fun r _ _ _ => .ok r,
    fun _ _ => .ok none, fun r _ => .ok (1, r)⟩, ⟨some _, 60, false⟩, rfl, rfl, ?_, ?_⟩
  · decide
  · exact ((claim8_delete Unit ⟨some _, 60, false⟩ "k" stNoTiers).2.2 _ rfl 1 () rfl).2
      (by decide)

/-! Section: C5: set -/

/-- `local_set` does not change whether a local store is present. -/
theorem localSet_lc_isSome (ρ : Type) (cfg : Cfg ρ) (key : String)
    (b : List Nat) (st : St ρ) (now : Int) :
    ((localSet ρ cfg key b st now).1).lc.isSome = st.lc.isSome := by
  obtain ⟨lc, rs, hits, misses⟩ := st
  cases lc with
  | none => rfl
  | some c =>
    simp only [localSet]
    split
    · rcases he : encodeTime now with e | stamp <;> simp
    · simp

/-- On a state with a local store present, `local_set` either succeeds or
raises the stamp `OverflowError`. -/
theorem localSet_err (ρ : Type) (cfg : Cfg ρ) (key : String) (b : List Nat)
    (st : St ρ) (now : Int) (h : st.lc.isSome = true) :
    (localSet ρ cfg key b st now).2 = .ok ()
      ∨ (localSet ρ cfg key b st now).2 = .error .overflowError := by
  obtain ⟨lc, rs, hits, misses⟩ := st
  cases lc with
  | none => simp at h
  | some c =>
    simp only [localSet]
    split
    · rcases he : encodeTime now with e | stamp
      · right
        have he2 : e = .overflowError := by
          simp only [encodeTime] at he
          split at he
          · injection he with h3
            exact h3.symm
          · cases he
        subst he2
        rfl
      · left
        rfl
    · left
      rfl

/-- An item whose stored value is falsy, so that the `value` property
resolves to `None` even though a value was supplied at construction. -/
def itemFalsy : Item := item0 "k" (.str "")

/-- C5 counterexample: With both tiers absent, `set` on an item whose
observed value is `None` (falsy stored value) raises `ValueError`, not the
configuration error — so "raises the configuration error exactly when both
tiers are absent" fails as stated. -/
theorem claim5_counterexample :
    cfgLocalOnly.redis = none ∧ stNoTiers.lc = none
      ∧ (setC toyLibs Unit cfgLocalOnly itemFalsy stNoTiers 0).2 = .error .valueError
      ∧ (setC toyLibs Unit cfgLocalOnly itemFalsy stNoTiers 0).2
          ≠ .error .redisLocalCacheNone := by
  refine ⟨rfl, rfl, rfl, ?_⟩
  intro h
  rw [show (setC toyLibs Unit cfgLocalOnly itemFalsy stNoTiers 0).2
      = .error .valueError from rfl] at h
  injection h with h2
  cases h2

/-- C5 amended: For an item whose observed value is non-null: `set`
raises the configuration error exactly when both the remote and the local
tier are absent; and when a remote tier is present (and the local write,
if any, succeeded), the remote operation is selected by the write
mode, receives the key, encoded bytes and normalized ttl, a
`NotImplementedError` from it propagates unchanged, and any other
collaborator exception is wrapped into `RedisIfaceError`. -/
theorem claim5_amended (L : PyLibs) (ρ : Type) (cfg : Cfg ρ) (item : Item)
    (st : St ρ) (now : Int) (v : PyValue) (hv : getValue L item = some v) :
    (((setC L ρ cfg item st now).2 = .error .redisLocalCacheNone)
        ↔ (cfg.redis = none ∧ st.lc = none))
      ∧ (∀ R, cfg.redis = some R → ∀ st1,
          (if st.lc.isSome then localSet ρ cfg item.key (marshal1 L v) st now
            else (st, .ok ())) = (st1, .ok ()) →
          (setC L ρ cfg item st now).2
            = (match chosenOp ρ R item st1.rs item.key (marshal1 L v) (getTtl item) with
              | .ok _ => .ok true
              | .error (.notImpl m) => .error (.notImplementedError m)
              | .error (.otherExc m) =>
                .error (.redisIface
                  ("cache: redis " ++ setFuncName item ++ " error. " ++ m)))) := by
  constructor
  · obtain ⟨olc, rs, hits, misses⟩ := st
    cases olc with
    | none =>
      cases hr : cfg.redis with
      | none => simp [setC, hv, hr]
      | some R =>
        simp only [setC, hv, hr, Option.isSome_none, Bool.false_eq_true, if_false]
        rcases hop : chosenOp ρ R item rs item.key (marshal1 L v) (getTtl item)
          with e | r2
        · cases e <;> simp [hop]
        · simp [hop]
    | some c =>
      simp only [setC, hv, localSet, Option.isSome_some, if_true]
      by_cases httl : cfg.local_cache_ttl > 0
      · rcases he : encodeTime now with e | stamp
        · have he2 : e = .overflowError := by
            simp only [encodeTime] at he
            split at he
            · injection he with h3
              exact h3.symm
            · cases he
          subst he2
          simp [httl, he]
        · cases hr : cfg.redis with
          | none => simp [httl, he, hr]
          | some R =>
            simp only [httl, if_true, he, hr]
            rcases hop : chosenOp ρ R item rs item.key (marshal1 L v) (getTtl item)
              with e2 | r2
            · cases e2 <;> simp [hop]
            · simp [hop]
      · cases hr : cfg.redis with
        | none => simp [httl, hr]
        | some R =>
          simp only [httl, if_false, hr]
          rcases hop : chosenOp ρ R item rs item.key (marshal1 L v) (getTtl item)
            with e2 | r2
          · cases e2 <;> simp [hop]
          · simp [hop]
  · intro R hr st1 hstep
    simp only [setC, hv, hstep, hr]
    rcases hop : chosenOp ρ R item st1.rs item.key (marshal1 L v) (getTtl item)
      with e | r2
    · cases e <;> simp [hop]
    · simp [hop]

/-- Witness for C5: the amended theorem applied at the two-tiers-absent
configuration with a truthy value, where `set` does raise the
configuration error. -/
theorem claim5_witness :
    getValue toyLibs (item0 "k" (.str "v")) = some (.str "v")
      ∧ ((setC toyLibs Unit cfgLocalOnly (item0 "k" (.str "v")) stNoTiers 0).2
            = .error .redisLocalCacheNone
          ↔ (cfgLocalOnly.redis = none ∧ stNoTiers.lc = none)) :=
  ⟨rfl, (claim5_amended toyLibs Unit cfgLocalOnly (item0 "k" (.str "v"))
    stNoTiers 0 (.str "v") rfl).1⟩

/-! Section: C2: the once/dedup contract -/

/-- A faithful in-memory remote collaborator: an association list of
key/value pairs, `set` replacing, `setxx`/`setnx` conditional, `get`
looking up, `delete` removing and counting. -/
abbrev RStore := List (String × List Nat)

def aget (r : RStore) (k : String) : Option (List Nat) :=
  (r.find? (fun p => p.1 == k)).map (fun p => p.2)

def goodOps : RedisOps RStore where
  rset := fun r k v _ => .ok ((k, v) :: r.filter (fun p => p.1 != k))
  rsetxx := fun r k v _ =>
    .ok (if (aget r k).isSome then (k, v) :: r.filter (fun p => p.1 != k) else r)
  rsetnx := fun r k v _ =>
    .ok (if (aget r k).isSome then r else (k, v) :: r)
  rget := fun r k => .ok (aget r k)
  rdelete := fun r k =>
    .ok ((r.filter (fun p => p.1 == k)).length, r.filter (fun p => p.1 != k))

/-- A remote-only configuration: working remote tier, local tier absent. -/
def remoteOnlyCfg (ttl : Int) (sen : Bool) : Cfg RStore := ⟨some goodOps, ttl, sen⟩

/-- The remote-only initial state: no local store, empty remote store. -/
def remoteOnlySt : St RStore := ⟨none, [], 0, 0⟩

/-- The outcome for the second item of two sequential `once` calls on the
same key against the remote-only configuration, the first item carrying
`v1`, the second `v2`, starting from an empty cache. -/
def onceTwiceSnd (L : PyLibs) (k : String) (v1 v2 : PyValue) (ttl : Int)
    (sen : Bool) (now : Int) : Except PyErr Item :=
  (onceC L RStore 2 (remoteOnlyCfg ttl sen) (item0 k v2)
    ((onceC L RStore 2 (remoteOnlyCfg ttl sen) (item0 k v1) remoteOnlySt now).1)
    now).2

/-- C2 counterexample: Under the default configuration (local tier
present, no remote tier), two sequential `once` calls on an
initially-uncached key leave the observed value of the second item at its own
`v2`, not `v1`: with a local tier configured, `once` never populates
anything on a miss, so nothing carries `v1` over to the second call. -/
theorem claim2_counterexample :
    (onceC toyLibs Unit 2 cfgLocalOnly (item0 "k" (.str "v1")) stDefault 0)
        = (stDefault, .ok (item0 "k" (.str "v1")))
      ∧ (onceC toyLibs Unit 2 cfgLocalOnly (item0 "k" (.str "v2")) stDefault 0).2
          = .ok (item0 "k" (.str "v2"))
      ∧ getValue toyLibs (item0 "k" (.str "v2")) = some (.str "v2")
      ∧ PyValue.str "v2" ≠ PyValue.str "v1" := by
  refine ⟨rfl, rfl, rfl, ?_⟩
  intro h
  injection h with h2
  exact absurd h2 (by decide)

/-- The second item after the two calls: its stored value has been
overwritten with the decoded cached value. -/
theorem claim2_amended_calc (L : PyLibs) (k : String) (v1 v2 : PyValue)
    (ttl : Int) (sen : Bool) (now : Int) (h1 : truthy L v1 = true) :
    onceTwiceSnd L k v1 v2 ttl sen now
      = .ok { item0 k v2 with valueRaw := some v1 } := by
  have hval1 : getValue L ⟨k, some v1, ONE_HOUR, none, false, false, false⟩ = some v1 := by
    simp [getValue, h1]
  have hgb1 : getBytes RStore (remoteOnlyCfg ttl sen) k false ⟨none, [], 0, 0⟩ now
      = (⟨none, [], 0, 1⟩, .ok none) := rfl
  have hset1 : setC L RStore (remoteOnlyCfg ttl sen)
      ⟨k, some v1, ONE_HOUR, none, false, false, false⟩ ⟨none, [], 0, 1⟩ now
      = (⟨none, [(k, marshal1 L v1)], 0, 1⟩, .ok true) := by
    simp [setC, hval1, chosenOp, goodOps, remoteOnlyCfg]
  have hsg1 : sgibo L RStore (remoteOnlyCfg ttl sen) (item0 k v1) ⟨none, [], 0, 0⟩ now
      = (⟨none, [(k, marshal1 L v1)], 0, 1⟩, .ok (.trueB, false)) := by
    simp only [sgibo, item0]
    rw [hgb1]
    dsimp only
    rw [hset1]
  have honce1 : onceC L RStore 2 (remoteOnlyCfg ttl sen) (item0 k v1) ⟨none, [], 0, 0⟩ now
      = (⟨none, [(k, marshal1 L v1)], 0, 1⟩, .ok (item0 k v1)) := by
    rw [show (2 : Nat) = 1 + 1 from rfl]
    simp only [onceC]
    rw [hsg1]
    rfl
  have hag : aget [(k, marshal1 L v1)] k = some (marshal1 L v1) := by
    simp [aget, List.find?]
  have hbne : truthyB (.bytesB (marshal1 L v1)) = true := by
    simp only [truthyB]
    cases hb : marshal1 L v1 with
    | nil => exact absurd hb (marshal1_ne_nil L v1)
    | cons x xs => simp
  cases sen with
  | false =>
    have hgb2 : getBytes RStore (remoteOnlyCfg ttl false) k false
        ⟨none, [(k, marshal1 L v1)], 0, 1⟩ now
        = (⟨none, [(k, marshal1 L v1)], 0, 1⟩, .ok (some (marshal1 L v1))) := by
      simp [getBytes, remoteOnlyCfg, goodOps, hag]
    have hsg2 : sgibo L RStore (remoteOnlyCfg ttl false) (item0 k v2)
        ⟨none, [(k, marshal1 L v1)], 0, 1⟩ now
        = (⟨none, [(k, marshal1 L v1)], 0, 1⟩,
            .ok (.bytesB (marshal1 L v1), true)) := by
      simp only [sgibo, item0]
      rw [hgb2]
    have honce2 : onceC L RStore 2 (remoteOnlyCfg ttl false) (item0 k v2)
        ⟨none, [(k, marshal1 L v1)], 0, 1⟩ now
        = (⟨none, [(k, marshal1 L v1)], 0, 1⟩,
            .ok { item0 k v2 with valueRaw := some v1 }) := by
      rw [show (2 : Nat) = 1 + 1 from rfl]
      simp only [onceC]
      rw [hsg2]
      dsimp only [unmarshalB]
      simp only [hbne, if_true]
      rw [unmarshal_marshal1]
    simp only [onceTwiceSnd, remoteOnlySt]
    rw [honce1]
    rw [honce2]
  | true =>
    have hgb2 : getBytes RStore (remoteOnlyCfg ttl true) k false
        ⟨none, [(k, marshal1 L v1)], 0, 1⟩ now
        = (⟨none, [(k, marshal1 L v1)], 1, 1⟩, .ok (some (marshal1 L v1))) := by
      simp [getBytes, remoteOnlyCfg, goodOps, hag]
    have hsg2 : sgibo L RStore (remoteOnlyCfg ttl true) (item0 k v2)
        ⟨none, [(k, marshal1 L v1)], 0, 1⟩ now
        = (⟨none, [(k, marshal1 L v1)], 1, 1⟩,
            .ok (.bytesB (marshal1 L v1), true)) := by
      simp only [sgibo, item0]
      rw [hgb2]
    have honce2 : onceC L RStore 2 (remoteOnlyCfg ttl true) (item0 k v2)
        ⟨none, [(k, marshal1 L v1)], 0, 1⟩ now
        = (⟨none, [(k, marshal1 L v1)], 1, 1⟩,
            .ok { item0 k v2 with valueRaw := some v1 }) := by
      rw [show (2 : Nat) = 1 + 1 from rfl]
      simp only [onceC]
      rw [hsg2]
      dsimp only [unmarshalB]
      simp only [hbne, if_true]
      rw [unmarshal_marshal1]
    simp only [onceTwiceSnd, remoteOnlySt]
    rw [honce1]
    rw [honce2]

/-- C2 amended: When the local tier is absent and a working remote
tier is present: after two sequential `once` calls on an initially-uncached
key, the first with an item carrying a truthy value `v1` and the second
with an item carrying `v2`, the observed value of the second item equals `v1` —
the write of the first call wins (it populates the remote tier through `set`)
and the second call reads the already-cached entry rather than
recomputing.  (Under the default configuration, with a local tier present,
this fails: see the counterexample.) -/
theorem claim2_amended (L : PyLibs) (k : String) (v1 v2 : PyValue)
    (ttl : Int) (sen : Bool) (now : Int) (h1 : truthy L v1 = true) :
    onceTwiceSnd L k v1 v2 ttl sen now
        = .ok { item0 k v2 with valueRaw := some v1 }
      ∧ getValue L { item0 k v2 with valueRaw := some v1 } = some v1 :=
  ⟨claim2_amended_calc L k v1 v2 ttl sen now h1, by simp [getValue, item0, h1]⟩

/-- Witness for C2: the amended theorem at concrete inputs — after the
two calls the second item observes the value of the first item. -/
theorem claim2_witness :
    truthy toyLibs (.str "a") = true
      ∧ onceTwiceSnd toyLibs "k" (.str "a") (.str "b") 60 false 0
          = .ok { item0 "k" (.str "b") with valueRaw := some (.str "a") }
      ∧ getValue toyLibs { item0 "k" (.str "b") with valueRaw := some (.str "a") }
          = some (.str "a") := by
  have h := claim2_amended toyLibs "k" (.str "a") (.str "b") 60 false 0 (by decide)
  exact ⟨by decide, h.1, h.2⟩

/-- Witness for C1: the round-trip theorem evaluated at the concrete
collaborator bundle on a text value. -/
theorem claim1_witness :
    unmarshal toyLibs (marshal toyLibs (some (.str "hello"))) = .ok (some (.str "hello")) :=
  (claim1_roundtrip toyLibs).1 (some (.str "hello"))

end VCache